import Mathlib

/-!
Verification of the agent-flow session/request/inbox coordination core.

The durable store (sessions, input requests, inbox messages, idempotency
records) is embedded as a pure state value `BusState`; every service
operation of `src/sessionbus/services/{sessions,requests,inbox}.py` becomes
a pure function from a state (plus an explicit clock value `now : Nat` for
each point where the code calls `_now()`, and explicit fresh UUID strings
for each `uuid4()` call) to its return value and the successor state.
SQL row lookups (`scalar_one_or_none` over a unique indexed column) become
`List.find?`; row updates become a map over the list replacing the matching
row; `ORDER BY` becomes a stable sort by the same keys.

The repository ships two divergent versions of the request lifecycle (its
own design notes acknowledge this): `models.RequestStatus` and
`services/requests.py` lack DISMISSED and the dismiss operation, while the
repository's own test suite (`test_dismiss_request_flow`) and schema layer
(`InputRequestDismissResponse`) exercise a dismiss-aware lifecycle whose
implementation is not part of the shipped service code.  The dismiss-aware
parts (the DISMISSED status value, the `dismiss_request` operation, and the
resolved-request guard of `respond_to_request` covering DISMISSED) are
modelled from the specification; each such definition says so in its doc
comment.  Everything else is translated directly from the source.
-/

/-- Raw session status, from `models.SessionState`. -/
inductive SessionState where
  | WORKING
  | WAITING_FOR_INPUT
  | DONE
  | ERROR
deriving DecidableEq, Repr

/-- Public (derived) session status, from `schemas.SessionPublicState`:
the raw statuses plus OFFLINE. -/
inductive SessionPublicState where
  | WORKING
  | WAITING_FOR_INPUT
  | DONE
  | ERROR
  | OFFLINE
deriving DecidableEq, Repr

/-- Request priority, from `models.RequestPriority`. -/
inductive RequestPriority where
  | LOW
  | NORMAL
  | HIGH
  | URGENT
deriving DecidableEq, Repr

/-- Request lifecycle status.  PENDING and ANSWERED are from
`models.RequestStatus`.  DISMISSED is modelled from the spec: the
dismiss-aware lifecycle (spec section 4.2, exercised by
`test_dismiss_request_flow`) has a third terminal status absent from the
shipped `models.py`. -/
inductive RequestStatus where
  | PENDING
  | ANSWERED
  | DISMISSED
deriving DecidableEq, Repr

/-- Inbox message delivery status, from `models.MessageStatus`. -/
inductive MessageStatus where
  | PENDING
  | DELIVERED
  | ACKED
deriving DecidableEq, Repr

/-- Session row, from `models.Session`.  Timestamps are abstract clock
values (Nat).  The ORM-managed audit column `updated_at` (set automatically
on any UPDATE) is not modelled; free-form JSON metadata is modelled as an
opaque optional string. -/
structure Session where
  sessionId : String
  displayName : String
  tenantId : Option String
  state : SessionState
  metadata : Option String
  createdAt : Nat
  lastSeenAt : Nat
deriving DecidableEq, Repr

/-- Input request row, from `models.InputRequest`.  The opaque JSON context
payload is modelled as an optional string, passed through unmodified. -/
structure InputRequest where
  requestId : String
  sessionId : String
  title : String
  question : String
  contextJson : Option String
  priority : RequestPriority
  tags : Option (List String)
  status : RequestStatus
  responseText : Option String
  responder : Option String
  createdAt : Nat
  answeredAt : Option Nat
deriving DecidableEq, Repr

/-- Payload of an inbox message.  The only producer in the core
(`respond_to_request`) builds the dict
`{request_id, response_text, responder, answered_at}`, so the payload is
modelled as that record. -/
structure MessagePayload where
  requestId : String
  responseText : String
  responder : String
  answeredAt : Option Nat
deriving DecidableEq, Repr

/-- Inbox message row, from `models.InboxMessage`. -/
structure InboxMessage where
  messageId : String
  sessionId : String
  messageType : String
  payload : MessagePayload
  status : MessageStatus
  createdAt : Nat
  deliveredAt : Option Nat
  ackedAt : Option Nat
deriving DecidableEq, Repr

/-- Idempotency record row, from `models.IdempotencyKey`; (scope, key)
is unique. -/
structure IdempotencyRecord where
  scope : String
  key : String
  resourceType : String
  resourceId : String
  createdAt : Nat
deriving DecidableEq, Repr

/-- The whole durable store.  Lists hold rows in insertion order, so a
row's position plays the role of the autoincrement primary key where the
source orders or tie-breaks by `id`. -/
structure BusState where
  sessions : List Session
  requests : List InputRequest
  inboxMessages : List InboxMessage
  idempotencyKeys : List IdempotencyRecord
deriving DecidableEq, Repr

/-- Lookup of a session by its unique `session_id`, from
`services/sessions.py get_session`. -/
def getSession (st : BusState) (sid : String) : Option Session :=
  st.sessions.find? (fun s => s.sessionId == sid)

/-- Lookup of a request by its unique `request_id`, from
`services/requests.py get_request`. -/
def getRequest (st : BusState) (rid : String) : Option InputRequest :=
  st.requests.find? (fun r => r.requestId == rid)

/-- Lookup of an idempotency record by (scope, key), from
`services/requests.py _get_idempotency_record`. -/
def getIdemRecord (st : BusState) (scope k : String) : Option IdempotencyRecord :=
  st.idempotencyKeys.find? (fun r => r.scope == scope && r.key == k)

/-- Lookup of an inbox message by (session_id, message_id), the select at
the head of `services/inbox.py ack_message`. -/
def findMessage (st : BusState) (sid mid : String) : Option InboxMessage :=
  st.inboxMessages.find? (fun m => m.sessionId == sid && m.messageId == mid)

/-- Update the session row matching `sid` in place (the ORM attribute
assignments followed by commit). -/
def updateSession (sessions : List Session) (sid : String) (f : Session → Session) :
    List Session :=
  sessions.map (fun s => if s.sessionId == sid then f s else s)

/-- Update the request row matching `rid` in place. -/
def updateRequest (requests : List InputRequest) (rid : String)
    (f : InputRequest → InputRequest) : List InputRequest :=
  requests.map (fun r => if r.requestId == rid then f r else r)

/-- Count of PENDING requests belonging to a session, the grouped count
query in `services/sessions.py list_sessions` (and, spec-modelled, the
remaining-pending check of dismiss). -/
def pendingCount (st : BusState) (sid : String) : Nat :=
  (st.requests.filter
    (fun r => r.sessionId == sid && r.status == RequestStatus.PENDING)).length

/-- Liveness threshold, `services/sessions.py OFFLINE_TIMEOUT_SECONDS`. -/
def OFFLINE_TIMEOUT_SECONDS : Nat := 120

/-- Injection of a raw status into the public status space (the
`SessionPublicState(session.state.value)` round-trip in
`_compute_public_state`). -/
def publicOfRaw : SessionState → SessionPublicState
  | SessionState.WORKING => SessionPublicState.WORKING
  | SessionState.WAITING_FOR_INPUT => SessionPublicState.WAITING_FOR_INPUT
  | SessionState.DONE => SessionPublicState.DONE
  | SessionState.ERROR => SessionPublicState.ERROR

/-- Derived public status, from `services/sessions.py
_compute_public_state`: OFFLINE when the age since last-seen strictly
exceeds the threshold, else the raw status.  With a Nat clock the age
`now - lastSeenAt` truncates at zero, matching the code where a negative
age is not greater than the threshold. -/
def computePublicState (now : Nat) (s : Session) : SessionPublicState :=
  if OFFLINE_TIMEOUT_SECONDS < now - s.lastSeenAt then SessionPublicState.OFFLINE
  else publicOfRaw s.state

/-- Session registration, from `services/sessions.py register_session`. -/
def register_session (st : BusState) (now : Nat) (freshId : String)
    (displayName : String) (tenantId : Option String) (metadata : Option String) :
    Session × BusState :=
  let s : Session :=
    { sessionId := freshId
      displayName := displayName
      tenantId := tenantId
      state := SessionState.WORKING
      metadata := metadata
      createdAt := now
      lastSeenAt := now }
  (s, { st with sessions := st.sessions ++ [s] })

/-- Heartbeat, from `services/sessions.py heartbeat`: updates last-seen
unconditionally, overwrites the raw status when one is given, replaces the
metadata when given. -/
def heartbeat (st : BusState) (now : Nat) (sid : String)
    (state? : Option SessionState) (metadata? : Option String) :
    Option Session × BusState :=
  match getSession st sid with
  | none => (none, st)
  | some _ =>
    let f : Session → Session := fun s =>
      { s with
        lastSeenAt := now
        state := match state? with | some v => v | none => s.state
        metadata := match metadata? with | some m => some m | none => s.metadata }
    let sessions' := updateSession st.sessions sid f
    let st' := { st with sessions := sessions' }
    (getSession st' sid, st')

/-- Explicit status override, from `services/sessions.py set_state`. -/
def set_state (st : BusState) (now : Nat) (sid : String) (state : SessionState) :
    Option Session × BusState :=
  match getSession st sid with
  | none => (none, st)
  | some _ =>
    let sessions' := updateSession st.sessions sid
      (fun s => { s with state := state, lastSeenAt := now })
    let st' := { st with sessions := sessions' }
    (getSession st' sid, st')

/-- Idempotency replay check, the inlined pattern at the top of
`create_request` and `respond_to_request` (requests.py lines 47-52 and
129-134): when a key is supplied and a record for (scope, key) exists and
the request it resolves to still exists, return that request; in every
other case fall through to the mutating body. -/
def idemCheck (st : BusState) (scope : String) (idemKey : Option String) :
    Option InputRequest :=
  match idemKey with
  | none => none
  | some k =>
    match getIdemRecord st scope k with
    | none => none
    | some record => getRequest st record.resourceId

/-- Input payload of request creation, from
`schemas.InputRequestCreateRequest`. -/
structure CreatePayload where
  title : String
  question : String
  contextJson : Option String
  priority : RequestPriority
  tags : Option (List String)
deriving DecidableEq, Repr

/-- Input payload of request response, from
`schemas.InputRequestResponseRequest`. -/
structure RespondPayload where
  responseText : String
  responder : String
deriving DecidableEq, Repr

/-- Request creation, from `services/requests.py create_request`.  Returns
(request or none for an unknown session, replay flag) and the successor
state.  A replayed call returns the already-created request and leaves the
state untouched; a fresh call creates the PENDING request, forces the
session to WAITING_FOR_INPUT with last-seen refreshed, and records the
idempotency key when one was supplied. -/
def create_request (st : BusState) (now : Nat) (freshId : String) (sid : String)
    (payload : CreatePayload) (idemKey : Option String) :
    (Option InputRequest × Bool) × BusState :=
  match getSession st sid with
  | none => ((none, false), st)
  | some _ =>
    let scope := "request.create:" ++ sid
    match idemCheck st scope idemKey with
    | some existing => ((some existing, true), st)
    | none =>
      let req : InputRequest :=
        { requestId := freshId
          sessionId := sid
          title := payload.title
          question := payload.question
          contextJson := payload.contextJson
          priority := payload.priority
          tags := payload.tags
          status := RequestStatus.PENDING
          responseText := none
          responder := none
          createdAt := now
          answeredAt := none }
      let sessions' := updateSession st.sessions sid
        (fun s => { s with state := SessionState.WAITING_FOR_INPUT, lastSeenAt := now })
      let idem' :=
        match idemKey with
        | some k =>
          st.idempotencyKeys ++
            [{ scope := scope, key := k, resourceType := "input_request",
               resourceId := freshId, createdAt := now }]
        | none => st.idempotencyKeys
      ((some req, false),
       { st with sessions := sessions', requests := st.requests ++ [req],
                 idempotencyKeys := idem' })

/-- Request response, from `services/requests.py respond_to_request`.
Returns (request or none for an unknown id, replay-or-noop flag) and the
successor state.  The already-resolved guard is `status != PENDING`: the
shipped requests.py line 136 tests `status == ANSWERED`, which over its
two-valued status enum is the same predicate; the DISMISSED arm is
modelled from the spec (section 4.2: a request already resolved as
ANSWERED or DISMISSED is returned unchanged, an idempotent no-op).  The
answering path sets status ANSWERED with response text, responder and
resolved time, flips the owning session back to WORKING with last-seen
refreshed, enqueues one INPUT_RESPONSE inbox message carrying
{request_id, response_text, responder, answered_at} (the inlined
`inbox.enqueue_message` call with autocommit=False), and records the
idempotency key when one was supplied. -/
def respond_to_request (st : BusState) (now : Nat) (freshMsgId : String)
    (requestId : String) (payload : RespondPayload) (idemKey : Option String) :
    (Option InputRequest × Bool) × BusState :=
  match getRequest st requestId with
  | none => ((none, false), st)
  | some req =>
    let scope := "request.respond:" ++ requestId
    match idemCheck st scope idemKey with
    | some existing => ((some existing, true), st)
    | none =>
      if req.status != RequestStatus.PENDING then ((some req, true), st)
      else
        let req' : InputRequest :=
          { req with
            status := RequestStatus.ANSWERED
            responseText := some payload.responseText
            responder := some payload.responder
            answeredAt := some now }
        let sessions' :=
          match getSession st req.sessionId with
          | none => st.sessions
          | some _ => updateSession st.sessions req.sessionId
              (fun s => { s with state := SessionState.WORKING, lastSeenAt := now })
        let msg : InboxMessage :=
          { messageId := freshMsgId
            sessionId := req.sessionId
            messageType := "INPUT_RESPONSE"
            payload :=
              { requestId := req.requestId
                responseText := payload.responseText
                responder := payload.responder
                answeredAt := some now }
            status := MessageStatus.PENDING
            createdAt := now
            deliveredAt := none
            ackedAt := none }
        let idem' :=
          match idemKey with
          | some k =>
            st.idempotencyKeys ++
              [{ scope := scope, key := k, resourceType := "input_request",
                 resourceId := req.requestId, createdAt := now }]
          | none => st.idempotencyKeys
        ((some req', false),
         { sessions := sessions'
           requests := updateRequest st.requests requestId (fun _ => req')
           inboxMessages := st.inboxMessages ++ [msg]
           idempotencyKeys := idem' })

/-- Request dismissal.  Modelled from the spec: the dismiss operation
(spec section 4.2, exercised by the repository's
`test_dismiss_request_flow` and declared by
`schemas.InputRequestDismissResponse`) is absent from the shipped service
code.  Per the spec: unknown id is NotFound; an already-resolved request
is returned unchanged; otherwise the status becomes DISMISSED with the
resolved timestamp set, no inbox message is produced, and the owning
session reverts to WORKING with last-seen refreshed exactly when zero
PENDING requests remain after the dismissal, otherwise the session is left
untouched. -/
def dismiss_request (st : BusState) (now : Nat) (requestId : String) :
    Option InputRequest × BusState :=
  match getRequest st requestId with
  | none => (none, st)
  | some req =>
    if req.status != RequestStatus.PENDING then (some req, st)
    else
      let req' : InputRequest :=
        { req with status := RequestStatus.DISMISSED, answeredAt := some now }
      let requests' := updateRequest st.requests requestId (fun _ => req')
      let remaining :=
        (requests'.filter
          (fun r => r.sessionId == req.sessionId && r.status == RequestStatus.PENDING)).length
      let sessions' :=
        if remaining == 0 then
          updateSession st.sessions req.sessionId
            (fun s => { s with state := SessionState.WORKING, lastSeenAt := now })
        else st.sessions
      (some req', { st with requests := requests', sessions := sessions' })

/-- Priority rank used by the pending-request ordering, the `case`
expression of `list_requests` (requests.py lines 102-108).  The source has
an `else_=4` arm for a value outside the enum; the enum is closed, so that
arm is unreachable for well-typed rows and has no counterpart here. -/
def priorityRank : RequestPriority → Nat
  | RequestPriority.URGENT => 0
  | RequestPriority.HIGH => 1
  | RequestPriority.NORMAL => 2
  | RequestPriority.LOW => 3

/-- Ordering relation of the PENDING listing: priority rank ascending,
then created time ascending. -/
def pendingLe (a b : InputRequest) : Prop :=
  priorityRank a.priority < priorityRank b.priority ∨
    (priorityRank a.priority = priorityRank b.priority ∧ a.createdAt ≤ b.createdAt)

instance : DecidableRel pendingLe := fun a b => by
  unfold pendingLe; exact inferInstance

instance : IsTotal InputRequest pendingLe where
  total a b := by
    unfold pendingLe
    rcases Nat.lt_trichotomy (priorityRank a.priority) (priorityRank b.priority) with h | h | h
    · exact Or.inl (Or.inl h)
    · rcases Nat.le_total a.createdAt b.createdAt with h2 | h2
      · exact Or.inl (Or.inr ⟨h, h2⟩)
      · exact Or.inr (Or.inr ⟨h.symm, h2⟩)
    · exact Or.inr (Or.inl h)

instance : IsTrans InputRequest pendingLe where
  trans a b c hab hbc := by
    unfold pendingLe at *
    rcases hab with h1 | ⟨h1, h1'⟩ <;> rcases hbc with h2 | ⟨h2, h2'⟩
    · exact Or.inl (Nat.lt_trans h1 h2)
    · exact Or.inl (h2 ▸ h1)
    · exact Or.inl (h1 ▸ h2)
    · exact Or.inr ⟨h1.trans h2, Nat.le_trans h1' h2'⟩

/-- Ordering relation of the non-PENDING listing: created time
descending. -/
def createdDescLe (a b : InputRequest) : Prop := b.createdAt ≤ a.createdAt

instance : DecidableRel createdDescLe := fun a b => by
  unfold createdDescLe; exact inferInstance

instance : IsTotal InputRequest createdDescLe where
  total a b := Nat.le_total b.createdAt a.createdAt

instance : IsTrans InputRequest createdDescLe where
  trans _ _ _ hab hbc := Nat.le_trans hbc hab

/-- Request listing, from `services/requests.py list_requests`: optional
status filter; the PENDING filter orders by (priority rank asc, created
asc), every other filter (or none) orders by created desc.  The SQL
ORDER BY is embedded as a stable sort by the same keys. -/
def list_requests (st : BusState) (status? : Option RequestStatus) :
    List InputRequest :=
  let base :=
    match status? with
    | none => st.requests
    | some q => st.requests.filter (fun r => r.status == q)
  if status? == some RequestStatus.PENDING then
    List.insertionSort pendingLe base
  else
    List.insertionSort createdDescLe base

/-- Ordering relation of inbox listings: created time ascending. -/
def msgCreatedLe (a b : InboxMessage) : Prop := a.createdAt ≤ b.createdAt

instance : DecidableRel msgCreatedLe := fun a b => by
  unfold msgCreatedLe; exact inferInstance

instance : IsTotal InboxMessage msgCreatedLe where
  total a b := Nat.le_total a.createdAt b.createdAt

instance : IsTrans InboxMessage msgCreatedLe where
  trans _ _ _ hab hbc := Nat.le_trans hab hbc

/-- Message enqueue, from `services/inbox.py enqueue_message`: always
creates a fresh PENDING message, never deduplicates. -/
def enqueue_message (st : BusState) (now : Nat) (freshId : String) (sid : String)
    (messageType : String) (payload : MessagePayload) : InboxMessage × BusState :=
  let m : InboxMessage :=
    { messageId := freshId
      sessionId := sid
      messageType := messageType
      payload := payload
      status := MessageStatus.PENDING
      createdAt := now
      deliveredAt := none
      ackedAt := none }
  (m, { st with inboxMessages := st.inboxMessages ++ [m] })

/-- Not-yet-ACKED messages of a session ordered by created time ascending,
from `services/inbox.py _list_unacked_messages`. -/
def unackedMessages (st : BusState) (sid : String) : List InboxMessage :=
  List.insertionSort msgCreatedLe
    (st.inboxMessages.filter
      (fun m => m.sessionId == sid && m.status != MessageStatus.ACKED))

/-- Timeout clamp of the poll loop, `max(0, min(timeout, 120))` at
inbox.py line 56. -/
def clampTimeout (timeout : Int) : Int := max 0 (min timeout 120)

/-- Delivery marking applied to each fetched message inside the poll loop:
a PENDING message becomes DELIVERED with the delivery timestamp; an
already-DELIVERED one is returned as is. -/
def deliverMessage (now : Nat) (m : InboxMessage) : InboxMessage :=
  if m.status == MessageStatus.PENDING then
    { m with status := MessageStatus.DELIVERED, deliveredAt := some now }
  else m

/-- Inbox long-poll, from `services/inbox.py poll_messages`.  The source
loops check-then-sleep until its clamped deadline; over a store that does
not change during the wait the loop either returns on its very first
message check or returns the empty list once the deadline passes, so the
loop is embedded as that one decision: unknown session gives (none, false);
a non-empty not-yet-acked set is returned in full with every PENDING
member marked DELIVERED; an empty set gives (some [], true), which is how
the code distinguishes a missing session from an existing one with no
messages.  The clamp at line 56 is `clampTimeout`; the deadline it feeds
only controls physical waiting time and is otherwise unobservable here. -/
def poll_messages (st : BusState) (now : Nat) (sid : String) (timeout : Int) :
    (Option (List InboxMessage) × Bool) × BusState :=
  match getSession st sid with
  | none => ((none, false), st)
  | some _ =>
    let _timeout_s := clampTimeout timeout
    let msgs := unackedMessages st sid
    if msgs.isEmpty then ((some [], true), st)
    else
      let inbox' := st.inboxMessages.map
        (fun m => if m.sessionId == sid && m.status != MessageStatus.ACKED then
            deliverMessage now m
          else m)
      ((some (msgs.map (deliverMessage now)), true),
       { st with inboxMessages := inbox' })

/-- Message acknowledgement, from `services/inbox.py ack_message`: unknown
(session, message) pair gives (none, false); a not-yet-ACKED message is
marked ACKED with the ack timestamp; an already-ACKED one is returned with
no state change. -/
def ack_message (st : BusState) (now : Nat) (sid mid : String) :
    (Option InboxMessage × Bool) × BusState :=
  match findMessage st sid mid with
  | none => ((none, false), st)
  | some m =>
    if m.status == MessageStatus.ACKED then ((some m, true), st)
    else
      let m' : InboxMessage :=
        { m with status := MessageStatus.ACKED, ackedAt := some now }
      let inbox' := st.inboxMessages.map
        (fun x => if x.sessionId == sid && x.messageId == mid then m' else x)
      ((some m', true), { st with inboxMessages := inbox' })

/-- Session summary row of the listing, from `schemas.SessionSummary`. -/
structure SessionSummary where
  sessionId : String
  displayName : String
  state : SessionPublicState
  lastSeenAt : Nat
  pendingRequestCount : Nat
  responseAcknowledged : Bool
  tenantId : Option String
  metadata : Option String
deriving DecidableEq, Repr

/-- Ordering relation of the session listing: last-seen descending, then
created descending. -/
def sessionOrderLe (a b : Session) : Prop :=
  b.lastSeenAt < a.lastSeenAt ∨ (b.lastSeenAt = a.lastSeenAt ∧ b.createdAt ≤ a.createdAt)

instance : DecidableRel sessionOrderLe := fun a b => by
  unfold sessionOrderLe; exact inferInstance

instance : IsTotal Session sessionOrderLe where
  total a b := by
    unfold sessionOrderLe
    rcases Nat.lt_trichotomy b.lastSeenAt a.lastSeenAt with h | h | h
    · exact Or.inl (Or.inl h)
    · rcases Nat.le_total b.createdAt a.createdAt with h2 | h2
      · exact Or.inl (Or.inr ⟨h, h2⟩)
      · exact Or.inr (Or.inr ⟨h.symm, h2⟩)
    · exact Or.inr (Or.inl h)

instance : IsTrans Session sessionOrderLe where
  trans a b c hab hbc := by
    unfold sessionOrderLe at *
    rcases hab with h1 | ⟨h1, h1'⟩ <;> rcases hbc with h2 | ⟨h2, h2'⟩
    · exact Or.inl (Nat.lt_trans h2 h1)
    · exact Or.inl (h2 ▸ h1)
    · exact Or.inl (h1 ▸ h2)
    · exact Or.inr ⟨h2.trans h1, Nat.le_trans h2' h1'⟩

/-- Most recently created INPUT_RESPONSE message of a session: the source
(sessions.py lines 109-130) orders the session's INPUT_RESPONSE rows by
created time descending then id descending and keeps the first per
session; over the insertion-ordered list this is the occurrence maximal by
created time, later rows winning ties (larger id). -/
def latestInputResponse (msgs : List InboxMessage) (sid : String) :
    Option InboxMessage :=
  (msgs.filter (fun m => m.sessionId == sid && m.messageType == "INPUT_RESPONSE")).foldl
    (fun best m =>
      match best with
      | none => some m
      | some b => if b.createdAt ≤ m.createdAt then some m else some b)
    none

/-- Summary of one session inside the listing, the comprehension body of
`list_sessions` (sessions.py lines 132-147): public state computed at read
time, the grouped pending count (default 0), and response_acknowledged
true iff the pending count is zero and the per-session acked flag of the
most recent INPUT_RESPONSE message is present and true (the dict lookup
`latest_response_acked.get(session_id, False)` defaults to false when the
session has no INPUT_RESPONSE message at all). -/
def sessionSummaryOf (st : BusState) (now : Nat) (s : Session) : SessionSummary :=
  { sessionId := s.sessionId
    displayName := s.displayName
    state := computePublicState now s
    lastSeenAt := s.lastSeenAt
    pendingRequestCount := pendingCount st s.sessionId
    responseAcknowledged :=
      pendingCount st s.sessionId == 0 &&
        (match latestInputResponse st.inboxMessages s.sessionId with
         | some m => m.status == MessageStatus.ACKED
         | none => false)
    tenantId := s.tenantId
    metadata := s.metadata }

/-- Session listing, from `services/sessions.py list_sessions`: sessions
ordered by last-seen descending then created descending, each mapped to
its summary. -/
def list_sessions (st : BusState) (now : Nat) : List SessionSummary :=
  (List.insertionSort sessionOrderLe st.sessions).map (sessionSummaryOf st now)

/-- One operation of the session-touching operation alphabet named by the
last-seen invariant: heartbeat, explicit state-set, request creation and
request response. -/
inductive BusOp where
  | heartbeatOp (sid : String) (state? : Option SessionState) (metadata? : Option String)
  | setStateOp (sid : String) (state : SessionState)
  | createOp (freshId : String) (sid : String) (payload : CreatePayload)
      (idemKey : Option String)
  | respondOp (freshMsgId : String) (requestId : String) (payload : RespondPayload)
      (idemKey : Option String)
deriving Repr

/-- State transition of one operation executed at clock value `now`,
discarding the call's return value. -/
def applyOp (st : BusState) (now : Nat) : BusOp → BusState
  | BusOp.heartbeatOp sid s m => (heartbeat st now sid s m).2
  | BusOp.setStateOp sid s => (set_state st now sid s).2
  | BusOp.createOp fid sid p k => (create_request st now fid sid p k).2
  | BusOp.respondOp fmid rid p k => (respond_to_request st now fmid rid p k).2

/-- Run of a timed operation sequence. -/
def runOps (st : BusState) : List (Nat × BusOp) → BusState
  | [] => st
  | (t, op) :: rest => runOps (applyOp st t op) rest

/-- Clock discipline of a run: the first operation does not execute before
`t0` and the per-operation clock never moves backward. -/
def timesMonotone : Nat → List (Nat × BusOp) → Prop
  | _, [] => True
  | t0, (t, _) :: rest => t0 ≤ t ∧ timesMonotone t rest

/-- Well-timedness of a state at clock value `t`: no stored session has a
last-seen timestamp in the future of `t`. -/
def WellTimed (st : BusState) (t : Nat) : Prop :=
  ∀ s ∈ st.sessions, s.lastSeenAt ≤ t

theorem find?_updateSession (l : List Session) (sid target : String)
    (f : Session → Session) (hf : ∀ s, (f s).sessionId = s.sessionId) :
    (updateSession l sid f).find? (fun s => s.sessionId == target) =
      ((l.find? (fun s => s.sessionId == target)).map
        (fun s => if s.sessionId == sid then f s else s)) := by
  induction l with
  | nil => rfl
  | cons a l ih =>
    simp only [updateSession] at ih ⊢
    simp only [List.map_cons]
    by_cases hsid : (a.sessionId == sid) = true
    · rw [if_pos hsid, List.find?_cons, List.find?_cons, hf a]
      by_cases htar : (a.sessionId == target) = true
      · rw [htar]
        have hP : a.sessionId = sid := by simpa using hsid
        simp [hP]
      · have htar' : (a.sessionId == target) = false := by simpa using htar
        rw [htar']
        exact ih
    · rw [if_neg hsid, List.find?_cons, List.find?_cons]
      by_cases htar : (a.sessionId == target) = true
      · rw [htar]
        have hP : ¬a.sessionId = sid := by simpa using hsid
        simp [hP]
      · have htar' : (a.sessionId == target) = false := by simpa using htar
        rw [htar']
        exact ih

/-- C8: for every session, the public status computed at read time is
OFFLINE if and only if the time elapsed since the session's last-seen
timestamp strictly exceeds 120 seconds; otherwise the public status equals
the session's raw status, whichever of the four raw statuses it is (the
raw statuses never map to OFFLINE). -/
theorem public_state_offline_iff (now : Nat) (s : Session) :
    (computePublicState now s = SessionPublicState.OFFLINE ↔
      OFFLINE_TIMEOUT_SECONDS < now - s.lastSeenAt) ∧
    (now - s.lastSeenAt ≤ OFFLINE_TIMEOUT_SECONDS →
      computePublicState now s = publicOfRaw s.state) ∧
    publicOfRaw s.state ≠ SessionPublicState.OFFLINE := by
  have hne : publicOfRaw s.state ≠ SessionPublicState.OFFLINE := by
    cases s.state <;> simp [publicOfRaw]
  by_cases h : OFFLINE_TIMEOUT_SECONDS < now - s.lastSeenAt
  · refine ⟨⟨fun _ => h, fun _ => ?_⟩, fun hc => absurd h (by omega), hne⟩
    simp [computePublicState, h]
  · refine ⟨⟨fun hc => ?_, fun hc => absurd hc h⟩, fun _ => ?_, hne⟩
    · rw [computePublicState, if_neg h] at hc
      exact absurd hc hne
    · rw [computePublicState, if_neg h]

theorem public_state_offline_iff_witness :
    (100 : Nat) - (4 : Nat) ≤ OFFLINE_TIMEOUT_SECONDS ∧
    computePublicState 100
      { sessionId := "s1", displayName := "Alpha", tenantId := none,
        state := SessionState.DONE, metadata := none, createdAt := 0,
        lastSeenAt := 4 } =
      publicOfRaw SessionState.DONE :=
  ⟨by decide,
   (public_state_offline_iff 100
      { sessionId := "s1", displayName := "Alpha", tenantId := none,
        state := SessionState.DONE, metadata := none, createdAt := 0,
        lastSeenAt := 4 }).2.1 (by decide)⟩

/-- C6: the request listing with the PENDING filter is sorted by priority
rank ascending (URGENT, HIGH, NORMAL, LOW) then created time ascending;
with any other filter, or none, it is sorted by created time descending. -/
theorem list_requests_ordering (st : BusState) (status? : Option RequestStatus) :
    (status? = some RequestStatus.PENDING →
      List.Sorted pendingLe (list_requests st status?)) ∧
    (status? ≠ some RequestStatus.PENDING →
      List.Sorted createdDescLe (list_requests st status?)) := by
  constructor
  · intro h
    subst h
    unfold list_requests
    rw [if_pos (by simp)]
    exact List.sorted_insertionSort _ _
  · intro h
    unfold list_requests
    rw [if_neg (by simpa using h)]
    exact List.sorted_insertionSort _ _

/-- Example session used by concrete instantiations. -/
def exSession : Session :=
  { sessionId := "s1", displayName := "Alpha", tenantId := none,
    state := SessionState.WAITING_FOR_INPUT, metadata := none,
    createdAt := 0, lastSeenAt := 3 }

/-- Example pending request of priority LOW created first. -/
def exReqLow : InputRequest :=
  { requestId := "r-low", sessionId := "s1", title := "Old prompt",
    question := "q1", contextJson := none, priority := RequestPriority.LOW,
    tags := none, status := RequestStatus.PENDING, responseText := none,
    responder := none, createdAt := 1, answeredAt := none }

/-- Example pending request of priority URGENT created second. -/
def exReqUrgent : InputRequest :=
  { requestId := "r-urgent", sessionId := "s1", title := "Hot prompt",
    question := "q2", contextJson := none, priority := RequestPriority.URGENT,
    tags := none, status := RequestStatus.PENDING, responseText := none,
    responder := none, createdAt := 2, answeredAt := none }

/-- Example pending request of priority NORMAL created third. -/
def exReqNormal : InputRequest :=
  { requestId := "r-normal", sessionId := "s1", title := "Mid prompt",
    question := "q3", contextJson := none, priority := RequestPriority.NORMAL,
    tags := none, status := RequestStatus.PENDING, responseText := none,
    responder := none, createdAt := 3, answeredAt := none }

/-- Example store holding the three pending requests created in the order
LOW, URGENT, NORMAL. -/
def exListState : BusState :=
  { sessions := [exSession], requests := [exReqLow, exReqUrgent, exReqNormal],
    inboxMessages := [], idempotencyKeys := [] }

theorem list_requests_ordering_witness :
    (list_requests exListState (some RequestStatus.PENDING)).map
        (fun r => r.requestId) = ["r-urgent", "r-normal", "r-low"] ∧
    List.Sorted pendingLe (list_requests exListState (some RequestStatus.PENDING)) :=
  ⟨by decide, (list_requests_ordering exListState (some RequestStatus.PENDING)).1 rfl⟩

/-- C5: every summary produced by the session listing reports
response_acknowledged as true exactly when the session has zero PENDING
requests and its most-recently-created INPUT_RESPONSE inbox message exists
and has status ACKED; in particular a session with zero pending requests
and no INPUT_RESPONSE message at all (the dict-lookup default of the
source) reports false. -/
theorem response_acknowledged_spec (st : BusState) (now : Nat) :
    ∀ x ∈ list_sessions st now,
      (x.responseAcknowledged = true ↔
        (pendingCount st x.sessionId = 0 ∧
          ∃ m, latestInputResponse st.inboxMessages x.sessionId = some m ∧
            m.status = MessageStatus.ACKED)) ∧
      (pendingCount st x.sessionId = 0 →
        latestInputResponse st.inboxMessages x.sessionId = none →
        x.responseAcknowledged = false) := by
  intro x hx
  rw [list_sessions] at hx
  obtain ⟨s, _, rfl⟩ := List.mem_map.mp hx
  constructor
  · cases hm : latestInputResponse st.inboxMessages s.sessionId with
    | none =>
      simp [sessionSummaryOf, hm]
    | some m =>
      by_cases hp : pendingCount st s.sessionId = 0
      · by_cases ha : m.status = MessageStatus.ACKED
        · simp [sessionSummaryOf, hm, hp, ha]
        · simp only [sessionSummaryOf, hm]
          constructor
          · intro h
            exact absurd (by simpa [hp] using h) ha
          · rintro ⟨-, m', hm', ha'⟩
            cases hm'
            exact absurd ha' ha
      · simp [sessionSummaryOf, hm, hp]
  · intro hp hm
    simp only [sessionSummaryOf] at hp hm ⊢
    simp [hm]

/-- Example acked INPUT_RESPONSE message. -/
def exAckMessage : InboxMessage :=
  { messageId := "m1", sessionId := "s2", messageType := "INPUT_RESPONSE",
    payload := { requestId := "r9", responseText := "ok", responder := "human",
                 answeredAt := some 4 },
    status := MessageStatus.ACKED, createdAt := 4, deliveredAt := some 4,
    ackedAt := some 5 }

/-- Example session with no pending requests. -/
def exAckSession : Session :=
  { sessionId := "s2", displayName := "Beta", tenantId := none,
    state := SessionState.WORKING, metadata := none, createdAt := 0,
    lastSeenAt := 5 }

/-- Example store for the acknowledgement flag: zero pending requests and
one acked INPUT_RESPONSE message. -/
def exAckState : BusState :=
  { sessions := [exAckSession], requests := [], inboxMessages := [exAckMessage],
    idempotencyKeys := [] }

theorem response_acknowledged_spec_witness :
    sessionSummaryOf exAckState 6 exAckSession ∈ list_sessions exAckState 6 ∧
    (sessionSummaryOf exAckState 6 exAckSession).responseAcknowledged = true :=
  ⟨by decide,
   ((response_acknowledged_spec exAckState 6 _ (by decide)).1).mpr
     ⟨by decide, exAckMessage, by decide, rfl⟩⟩

/-- C7: the inbox poll returns (none, false) exactly for a missing
session; the effective timeout is clamped into [0, 120]; for an existing
session with a non-empty not-yet-ACKED set it returns that full set
ordered by creation time ascending with every PENDING member marked
DELIVERED and stamped with the delivery time, and for an existing session
with no unacked messages it returns the empty sequence with session_found
true, so the two outcomes stay distinguishable. -/
theorem poll_contract (st : BusState) (now : Nat) (sid : String) (t : Int) :
    (getSession st sid = none → poll_messages st now sid t = ((none, false), st)) ∧
    (0 ≤ clampTimeout t ∧ clampTimeout t ≤ 120) ∧
    ((poll_messages st now sid t).1.2 = true ↔ getSession st sid ≠ none) ∧
    (getSession st sid ≠ none →
      (unackedMessages st sid ≠ [] →
        (poll_messages st now sid t).1.1 =
          some ((unackedMessages st sid).map (deliverMessage now)) ∧
        List.Sorted msgCreatedLe (unackedMessages st sid) ∧
        (∀ m ∈ unackedMessages st sid,
          (m.status = MessageStatus.PENDING →
            deliverMessage now m =
              { m with status := MessageStatus.DELIVERED,
                       deliveredAt := some now }) ∧
          (m.status ≠ MessageStatus.PENDING → deliverMessage now m = m))) ∧
      (unackedMessages st sid = [] →
        poll_messages st now sid t = ((some [], true), st))) := by
  have hclamp : 0 ≤ clampTimeout t ∧ clampTimeout t ≤ 120 := by
    unfold clampTimeout
    constructor
    · exact le_max_left 0 _
    · exact max_le (by norm_num) (min_le_right t 120)
  have hdeliver : ∀ m : InboxMessage,
      (m.status = MessageStatus.PENDING →
        deliverMessage now m =
          { m with status := MessageStatus.DELIVERED, deliveredAt := some now }) ∧
      (m.status ≠ MessageStatus.PENDING → deliverMessage now m = m) := by
    intro m
    constructor
    · intro h
      unfold deliverMessage
      rw [if_pos (by simp [h])]
    · intro h
      unfold deliverMessage
      rw [if_neg (by simpa using h)]
  by_cases hs : getSession st sid = none
  · have hp : poll_messages st now sid t = ((none, false), st) := by
      unfold poll_messages
      rw [hs]
    exact ⟨fun _ => hp, hclamp, by rw [hp]; simp [hs], fun hne => absurd hs hne⟩
  · have hsome : ∃ s, getSession st sid = some s := by
      cases hg : getSession st sid with
      | none => exact absurd hg hs
      | some s => exact ⟨s, rfl⟩
    obtain ⟨s, hs2⟩ := hsome
    refine ⟨fun h => absurd h hs, hclamp, ?_, fun _ => ⟨?_, ?_⟩⟩
    · constructor
      · exact fun _ => hs
      · intro _
        unfold poll_messages
        rw [hs2]
        by_cases hE : unackedMessages st sid = []
        · simp [hE]
        · simp [List.isEmpty_iff, hE]
    · intro hne
      refine ⟨?_, List.sorted_insertionSort _ _, fun m _ => hdeliver m⟩
      unfold poll_messages
      rw [hs2]
      simp [List.isEmpty_iff, hne]
    · intro hE
      unfold poll_messages
      rw [hs2]
      simp [hE]

/-- Example pending inbox message awaiting delivery. -/
def exPendingMessage : InboxMessage :=
  { messageId := "m2", sessionId := "s3", messageType := "INPUT_RESPONSE",
    payload := { requestId := "r7", responseText := "go", responder := "human",
                 answeredAt := some 4 },
    status := MessageStatus.PENDING, createdAt := 4, deliveredAt := none,
    ackedAt := none }

/-- Example session owning the pending message. -/
def exPollSession : Session :=
  { sessionId := "s3", displayName := "Gamma", tenantId := none,
    state := SessionState.WORKING, metadata := none, createdAt := 0,
    lastSeenAt := 5 }

/-- Example store for the poll scenarios: one session, one undelivered
message. -/
def exPollState : BusState :=
  { sessions := [exPollSession], requests := [], inboxMessages := [exPendingMessage],
    idempotencyKeys := [] }

theorem poll_contract_witness :
    getSession exPollState "s3" ≠ none ∧
    unackedMessages exPollState "s3" ≠ [] ∧
    (poll_messages exPollState 9 "s3" 30).1.1 =
      some ((unackedMessages exPollState "s3").map (deliverMessage 9)) :=
  ⟨by decide, by decide,
   (((poll_contract exPollState 9 "s3" 30).2.2.2 (by decide)).1 (by decide)).1⟩

/-- C10: the poll loop checks for messages before testing its deadline, so
for an existing session with a non-empty not-yet-ACKED set a poll whose
timeout is zero or negative (the clamp sends it to zero) still returns
that set, marking PENDING members DELIVERED, and an empty result with such
a timeout occurs only when no unacked message existed at call time. -/
theorem poll_checks_messages_before_deadline (st : BusState) (now : Nat)
    (sid : String) (t : Int) (s : Session)
    (hs : getSession st sid = some s) (ht : t ≤ 0) :
    clampTimeout t = 0 ∧
    (unackedMessages st sid ≠ [] →
      (poll_messages st now sid t).1 =
        (some ((unackedMessages st sid).map (deliverMessage now)), true) ∧
      (unackedMessages st sid).map (deliverMessage now) ≠ [] ∧
      (∀ m ∈ unackedMessages st sid, m.status = MessageStatus.PENDING →
        deliverMessage now m =
          { m with status := MessageStatus.DELIVERED,
                   deliveredAt := some now })) ∧
    ((poll_messages st now sid t).1.1 = some [] → unackedMessages st sid = []) := by
  refine ⟨?_, fun hne => ⟨?_, ?_, ?_⟩, ?_⟩
  · unfold clampTimeout
    rw [min_eq_left (by omega), max_eq_left ht]
  · unfold poll_messages
    rw [hs]
    simp [List.isEmpty_iff, hne]
  · simpa using hne
  · intro m _ hm
    unfold deliverMessage
    rw [if_pos (by simp [hm])]
  · intro hres
    by_cases hE : unackedMessages st sid = []
    · exact hE
    · exfalso
      have hval : (poll_messages st now sid t).1.1 =
          some ((unackedMessages st sid).map (deliverMessage now)) := by
        unfold poll_messages
        rw [hs]
        simp [List.isEmpty_iff, hE]
      rw [hval] at hres
      exact hE (by simpa using Option.some.inj hres)

theorem poll_checks_messages_before_deadline_witness :
    getSession exPollState "s3" = some exPollSession ∧
    (-5 : Int) ≤ 0 ∧
    unackedMessages exPollState "s3" ≠ [] ∧
    clampTimeout (-5) = 0 ∧
    (poll_messages exPollState 9 "s3" (-5)).1 =
      (some ((unackedMessages exPollState "s3").map (deliverMessage 9)), true) :=
  ⟨by decide, by decide, by decide,
   (poll_checks_messages_before_deadline exPollState 9 "s3" (-5) exPollSession
     (by decide) (by decide)).1,
   ((poll_checks_messages_before_deadline exPollState 9 "s3" (-5) exPollSession
     (by decide) (by decide)).2.1 (by decide)).1⟩

/-- C4: resolving an already-resolved request and acking an already-acked
message are successful idempotent no-ops.  A request whose status is not
PENDING (ANSWERED or DISMISSED) is returned unchanged by respond with the
whole store untouched, provided any supplied idempotency key has no prior
record (the replay branch would otherwise answer first); a message already
in status ACKED is returned by ack with its fields, including the acked
timestamp, and the store unchanged. -/
theorem resolved_noop (st : BusState) (now : Nat) (fmid rid sid mid : String)
    (pay : RespondPayload) (idemKey : Option String) :
    (∀ r, getRequest st rid = some r → r.status ≠ RequestStatus.PENDING →
      (∀ k, idemKey = some k →
        getIdemRecord st ("request.respond:" ++ rid) k = none) →
      respond_to_request st now fmid rid pay idemKey = ((some r, true), st)) ∧
    (∀ m, findMessage st sid mid = some m → m.status = MessageStatus.ACKED →
      ack_message st now sid mid = ((some m, true), st)) := by
  constructor
  · intro r hr hstat hkey
    have hidem : idemCheck st ("request.respond:" ++ rid) idemKey = none := by
      cases idemKey with
      | none => rfl
      | some k =>
        unfold idemCheck
        simp [hkey k rfl]
    simp only [respond_to_request, hr, hidem]
    rw [if_pos (by simpa [bne_iff_ne] using hstat)]
  · intro m hm hstat
    unfold ack_message
    rw [hm]
    simp [hstat]

/-- Example request already resolved as ANSWERED. -/
def exAnsweredRequest : InputRequest :=
  { requestId := "r9", sessionId := "s2", title := "T", question := "Q",
    contextJson := none, priority := RequestPriority.NORMAL, tags := none,
    status := RequestStatus.ANSWERED, responseText := some "ok",
    responder := some "human", createdAt := 2, answeredAt := some 4 }

/-- Example store holding a resolved request and an acked message. -/
def exResolvedState : BusState :=
  { sessions := [exAckSession], requests := [exAnsweredRequest],
    inboxMessages := [exAckMessage], idempotencyKeys := [] }

theorem resolved_noop_witness :
    getRequest exResolvedState "r9" = some exAnsweredRequest ∧
    exAnsweredRequest.status ≠ RequestStatus.PENDING ∧
    findMessage exResolvedState "s2" "m1" = some exAckMessage ∧
    exAckMessage.status = MessageStatus.ACKED ∧
    respond_to_request exResolvedState 8 "mX" "r9"
        { responseText := "again", responder := "human" } none =
      ((some exAnsweredRequest, true), exResolvedState) ∧
    ack_message exResolvedState 8 "s2" "m1" =
      ((some exAckMessage, true), exResolvedState) :=
  ⟨by decide, by decide, by decide, by decide,
   (resolved_noop exResolvedState 8 "mX" "r9" "s2" "m1"
       { responseText := "again", responder := "human" } none).1
     exAnsweredRequest (by decide) (by decide) (fun k hk => nomatch hk),
   (resolved_noop exResolvedState 8 "mX" "r9" "s2" "m1"
       { responseText := "again", responder := "human" } none).2
     exAckMessage (by decide) (by decide)⟩

/-- C1: dismiss on a PENDING request sets its status to DISMISSED with the
resolved timestamp, produces no inbox message, and reverts the owning
session's raw status to WORKING (refreshing last-seen) exactly when zero
PENDING requests remain after the dismissal, otherwise leaving the session
untouched (hence still WAITING_FOR_INPUT when it was); dismiss on an
unknown request id is NotFound, and dismiss on an already-resolved request
returns it unchanged with no state change.  The dismiss operation is
modelled from the spec, being absent from the shipped service code. -/
theorem dismiss_contract (st : BusState) (now : Nat) (rid : String) :
    (getRequest st rid = none → dismiss_request st now rid = (none, st)) ∧
    (∀ r, getRequest st rid = some r → r.status ≠ RequestStatus.PENDING →
      dismiss_request st now rid = (some r, st)) ∧
    (∀ r, getRequest st rid = some r → r.status = RequestStatus.PENDING →
      (dismiss_request st now rid).1 =
        some { r with status := RequestStatus.DISMISSED, answeredAt := some now } ∧
      (dismiss_request st now rid).2.inboxMessages = st.inboxMessages ∧
      ∀ s, getSession st r.sessionId = some s →
        (pendingCount (dismiss_request st now rid).2 r.sessionId = 0 →
          getSession (dismiss_request st now rid).2 r.sessionId =
            some { s with state := SessionState.WORKING, lastSeenAt := now }) ∧
        (pendingCount (dismiss_request st now rid).2 r.sessionId ≠ 0 →
          getSession (dismiss_request st now rid).2 r.sessionId = some s ∧
          (s.state = SessionState.WAITING_FOR_INPUT →
            (getSession (dismiss_request st now rid).2 r.sessionId).map
                (fun x => x.state) = some SessionState.WAITING_FOR_INPUT))) := by
  refine ⟨?_, ?_, ?_⟩
  · intro h
    unfold dismiss_request
    rw [h]
  · intro r hr hstat
    unfold dismiss_request
    rw [hr]
    simp only []
    rw [if_pos (by simpa [bne_iff_ne] using hstat)]
  · intro r hr hstat
    have heq : dismiss_request st now rid =
        (some { r with status := RequestStatus.DISMISSED, answeredAt := some now },
         { st with
            requests := updateRequest st.requests rid
              (fun _ => { r with status := RequestStatus.DISMISSED,
                                 answeredAt := some now })
            sessions :=
              if ((updateRequest st.requests rid
                    (fun _ => { r with status := RequestStatus.DISMISSED,
                                       answeredAt := some now })).filter
                  (fun x => x.sessionId == r.sessionId &&
                    x.status == RequestStatus.PENDING)).length == 0 then
                updateSession st.sessions r.sessionId
                  (fun s => { s with state := SessionState.WORKING,
                                     lastSeenAt := now })
              else st.sessions }) := by
      unfold dismiss_request
      rw [hr]
      simp only []
      rw [if_neg (by simp [hstat])]
    have hpc : pendingCount (dismiss_request st now rid).2 r.sessionId =
        ((updateRequest st.requests rid
            (fun _ => { r with status := RequestStatus.DISMISSED,
                               answeredAt := some now })).filter
          (fun x => x.sessionId == r.sessionId &&
            x.status == RequestStatus.PENDING)).length := by
      rw [heq, pendingCount]
    refine ⟨by rw [heq], by rw [heq], ?_⟩
    intro s hsv
    have hsv2 : st.sessions.find? (fun x => x.sessionId == r.sessionId) = some s := hsv
    have hsid : (s.sessionId == r.sessionId) = true := by
      have h := List.find?_some hsv2
      simpa using h
    have hif : (dismiss_request st now rid).2.sessions =
        (if pendingCount (dismiss_request st now rid).2 r.sessionId == 0 then
          updateSession st.sessions r.sessionId
            (fun x => { x with state := SessionState.WORKING, lastSeenAt := now })
        else st.sessions) := by
      rw [hpc, heq]
    constructor
    · intro hz
      have hif0 : (dismiss_request st now rid).2.sessions =
          updateSession st.sessions r.sessionId
            (fun x => { x with state := SessionState.WORKING, lastSeenAt := now }) := by
        rw [hif, if_pos (by simp [hz])]
      rw [getSession, hif0,
        find?_updateSession st.sessions r.sessionId r.sessionId
          (fun x => { x with state := SessionState.WORKING, lastSeenAt := now })
          (fun _ => rfl),
        hsv2]
      simp [hsid]
      intro hc
      exact absurd (by simpa using hsid) hc
    · intro hnz
      have hif1 : (dismiss_request st now rid).2.sessions = st.sessions := by
        rw [hif, if_neg (by simpa using hnz)]
      have hget : getSession (dismiss_request st now rid).2 r.sessionId = some s := by
        rw [getSession, hif1]
        exact hsv2
      exact ⟨hget, fun hw => by rw [hget]; simp [hw]⟩

/-- Example store whose only request is the pending LOW one. -/
def exOnePendingState : BusState :=
  { sessions := [exSession], requests := [exReqLow], inboxMessages := [],
    idempotencyKeys := [] }

theorem dismiss_contract_witness :
    getRequest exOnePendingState "r-low" = some exReqLow ∧
    exReqLow.status = RequestStatus.PENDING ∧
    getSession exOnePendingState "s1" = some exSession ∧
    pendingCount (dismiss_request exOnePendingState 6 "r-low").2 "s1" = 0 ∧
    (dismiss_request exOnePendingState 6 "r-low").1 =
      some { exReqLow with status := RequestStatus.DISMISSED, answeredAt := some 6 } ∧
    (dismiss_request exOnePendingState 6 "r-low").2.inboxMessages =
      exOnePendingState.inboxMessages ∧
    getSession (dismiss_request exOnePendingState 6 "r-low").2 "s1" =
      some { exSession with state := SessionState.WORKING, lastSeenAt := 6 } :=
  ⟨by decide, by decide, by decide, by decide,
   ((dismiss_contract exOnePendingState 6 "r-low").2.2 exReqLow (by decide) rfl).1,
   ((dismiss_contract exOnePendingState 6 "r-low").2.2 exReqLow (by decide) rfl).2.1,
   (((dismiss_contract exOnePendingState 6 "r-low").2.2 exReqLow (by decide) rfl).2.2
     exSession (by decide)).1 (by decide)⟩

/-- C2: for a registered session and an idempotency key with no prior
record, calling create-request twice with the same session id and key
returns the same request both times, flags the second call as a replay,
leaves exactly one new underlying request, and the replay call performs no
mutation at all: the state after the second call is exactly the state
after the first. -/
theorem create_request_idempotent_replay (st : BusState) (now1 now2 : Nat)
    (fid1 fid2 sid k : String) (p1 p2 : CreatePayload)
    (hsess : ∃ s, getSession st sid = some s)
    (hnorec : getIdemRecord st ("request.create:" ++ sid) k = none)
    (hfresh : ∀ r ∈ st.requests, r.requestId ≠ fid1) :
    ∃ r1 st1,
      create_request st now1 fid1 sid p1 (some k) = ((some r1, false), st1) ∧
      create_request st1 now2 fid2 sid p2 (some k) = ((some r1, true), st1) ∧
      st1.requests = st.requests ++ [r1] ∧
      r1.requestId = fid1 := by
  obtain ⟨s, hs⟩ := hsess
  have hidem1 : idemCheck st ("request.create:" ++ sid) (some k) = none := by
    unfold idemCheck
    simp [hnorec]
  refine ⟨{ requestId := fid1, sessionId := sid, title := p1.title,
            question := p1.question, contextJson := p1.contextJson,
            priority := p1.priority, tags := p1.tags,
            status := RequestStatus.PENDING, responseText := none,
            responder := none, createdAt := now1, answeredAt := none },
          { sessions := updateSession st.sessions sid
              (fun x => { x with state := SessionState.WAITING_FOR_INPUT,
                                 lastSeenAt := now1 })
            requests := st.requests ++
              [{ requestId := fid1, sessionId := sid, title := p1.title,
                 question := p1.question, contextJson := p1.contextJson,
                 priority := p1.priority, tags := p1.tags,
                 status := RequestStatus.PENDING, responseText := none,
                 responder := none, createdAt := now1, answeredAt := none }]
            inboxMessages := st.inboxMessages
            idempotencyKeys := st.idempotencyKeys ++
              [{ scope := "request.create:" ++ sid, key := k,
                 resourceType := "input_request", resourceId := fid1,
                 createdAt := now1 }] }, ?_, ?_, rfl, rfl⟩
  · simp only [create_request, hs, hidem1]
  · have hs1 : (updateSession st.sessions sid
        (fun x => { x with state := SessionState.WAITING_FOR_INPUT,
                           lastSeenAt := now1 })).find?
        (fun x => x.sessionId == sid) =
        some (if s.sessionId == sid
          then { s with state := SessionState.WAITING_FOR_INPUT,
                        lastSeenAt := now1 } else s) := by
      rw [find?_updateSession st.sessions sid sid
          (fun x => { x with state := SessionState.WAITING_FOR_INPUT,
                             lastSeenAt := now1 })
          (fun _ => rfl)]
      have hs2 : st.sessions.find? (fun x => x.sessionId == sid) = some s := hs
      rw [hs2]
      rfl
    have hnorec2 : st.idempotencyKeys.find?
        (fun r => r.scope == ("request.create:" ++ sid) && r.key == k) = none :=
      hnorec
    have hrec : (st.idempotencyKeys ++
        [({ scope := "request.create:" ++ sid, key := k,
            resourceType := "input_request", resourceId := fid1,
            createdAt := now1 } : IdempotencyRecord)]).find?
        (fun r => r.scope == ("request.create:" ++ sid) && r.key == k) =
        some { scope := "request.create:" ++ sid, key := k,
               resourceType := "input_request", resourceId := fid1,
               createdAt := now1 } := by
      rw [List.find?_append, hnorec2]
      simp
    have hget1 : (st.requests ++
        [({ requestId := fid1, sessionId := sid, title := p1.title,
            question := p1.question, contextJson := p1.contextJson,
            priority := p1.priority, tags := p1.tags,
            status := RequestStatus.PENDING, responseText := none,
            responder := none, createdAt := now1, answeredAt := none } : InputRequest)]).find?
        (fun r => r.requestId == fid1) =
        some { requestId := fid1, sessionId := sid, title := p1.title,
               question := p1.question, contextJson := p1.contextJson,
               priority := p1.priority, tags := p1.tags,
               status := RequestStatus.PENDING, responseText := none,
               responder := none, createdAt := now1, answeredAt := none } := by
      rw [List.find?_append]
      have hnone : st.requests.find? (fun r => r.requestId == fid1) = none :=
        List.find?_eq_none.mpr (fun r hr => by simpa using hfresh r hr)
      rw [hnone]
      simp
    simp only [create_request, getSession, idemCheck, getIdemRecord, getRequest,
      hs1, hrec, hget1]

/-- Example store with one registered session and nothing else. -/
def exEmptyState : BusState :=
  { sessions := [exAckSession], requests := [], inboxMessages := [],
    idempotencyKeys := [] }

/-- Example creation payload. -/
def exCreatePayload : CreatePayload :=
  { title := "Need approval", question := "Continue?", contextJson := none,
    priority := RequestPriority.NORMAL, tags := none }

theorem create_request_idempotent_replay_witness :
    (∃ s, getSession exEmptyState "s2" = some s) ∧
    getIdemRecord exEmptyState ("request.create:" ++ "s2") "key-1" = none ∧
    (∀ r ∈ exEmptyState.requests, r.requestId ≠ "rid-1") ∧
    (∃ r1 st1,
      create_request exEmptyState 7 "rid-1" "s2" exCreatePayload (some "key-1") =
        ((some r1, false), st1) ∧
      create_request st1 8 "rid-2" "s2" exCreatePayload (some "key-1") =
        ((some r1, true), st1) ∧
      st1.requests = exEmptyState.requests ++ [r1] ∧
      r1.requestId = "rid-1") :=
  ⟨⟨exAckSession, by decide⟩, by decide, by decide,
   create_request_idempotent_replay exEmptyState 7 8 "rid-1" "rid-2" "s2" "key-1"
     exCreatePayload exCreatePayload ⟨exAckSession, by decide⟩ (by decide)
     (by decide)⟩

/-- C3: answering the sole PENDING request of a session marks it ANSWERED
with the response text, responder and resolved timestamp stored, returns
the owning session's raw status to WORKING with last-seen refreshed, and
appends exactly one new INPUT_RESPONSE inbox message for that session
whose payload carries the answered request's id. -/
theorem respond_sole_pending (st : BusState) (now : Nat) (fmid rid : String)
    (pay : RespondPayload) (r : InputRequest) (s : Session)
    (hr : getRequest st rid = some r)
    (hp : r.status = RequestStatus.PENDING)
    (hs : getSession st r.sessionId = some s)
    (hsole : pendingCount st r.sessionId = 1) :
    ∃ r' st',
      respond_to_request st now fmid rid pay none = ((some r', false), st') ∧
      r'.status = RequestStatus.ANSWERED ∧
      r'.responseText = some pay.responseText ∧
      r'.responder = some pay.responder ∧
      r'.answeredAt = some now ∧
      getSession st' r.sessionId =
        some { s with state := SessionState.WORKING, lastSeenAt := now } ∧
      ∃ m, st'.inboxMessages = st.inboxMessages ++ [m] ∧
        m.messageType = "INPUT_RESPONSE" ∧
        m.sessionId = r.sessionId ∧
        m.payload.requestId = r.requestId ∧
        m.payload.requestId = rid := by
  have hs2 : st.sessions.find? (fun x => x.sessionId == r.sessionId) = some s := hs
  have hsid : (s.sessionId == r.sessionId) = true := by
    have h := List.find?_some hs2
    simpa using h
  have hrid : r.requestId = rid := by
    have hr2 : st.requests.find? (fun x => x.requestId == rid) = some r := hr
    have h := List.find?_some hr2
    simpa using h
  refine ⟨{ r with status := RequestStatus.ANSWERED,
                   responseText := some pay.responseText,
                   responder := some pay.responder,
                   answeredAt := some now },
          { sessions := updateSession st.sessions r.sessionId
              (fun x => { x with state := SessionState.WORKING,
                                 lastSeenAt := now })
            requests := updateRequest st.requests rid
              (fun _ => { r with status := RequestStatus.ANSWERED,
                                 responseText := some pay.responseText,
                                 responder := some pay.responder,
                                 answeredAt := some now })
            inboxMessages := st.inboxMessages ++
              [{ messageId := fmid, sessionId := r.sessionId,
                 messageType := "INPUT_RESPONSE",
                 payload := { requestId := r.requestId,
                              responseText := pay.responseText,
                              responder := pay.responder,
                              answeredAt := some now },
                 status := MessageStatus.PENDING, createdAt := now,
                 deliveredAt := none, ackedAt := none }]
            idempotencyKeys := st.idempotencyKeys },
          ?_, rfl, rfl, rfl, rfl, ?_, ⟨_, rfl, rfl, rfl, rfl, hrid⟩⟩
  · simp only [respond_to_request, idemCheck, hr]
    rw [if_neg (by simp [hp])]
    simp only [hs]
  · show (updateSession st.sessions r.sessionId _).find?
        (fun x => x.sessionId == r.sessionId) = _
    rw [find?_updateSession st.sessions r.sessionId r.sessionId
        (fun x => { x with state := SessionState.WORKING, lastSeenAt := now })
        (fun _ => rfl), hs2]
    simp [hsid]
    intro hc
    exact absurd (by simpa using hsid) hc

theorem respond_sole_pending_witness :
    getRequest exOnePendingState "r-low" = some exReqLow ∧
    exReqLow.status = RequestStatus.PENDING ∧
    getSession exOnePendingState "s1" = some exSession ∧
    pendingCount exOnePendingState "s1" = 1 ∧
    (∃ r' st',
      respond_to_request exOnePendingState 7 "m9" "r-low"
          { responseText := "Use action B", responder := "human" } none =
        ((some r', false), st') ∧
      r'.status = RequestStatus.ANSWERED ∧
      r'.responseText = some "Use action B" ∧
      r'.responder = some "human" ∧
      r'.answeredAt = some 7 ∧
      getSession st' exReqLow.sessionId =
        some { exSession with state := SessionState.WORKING, lastSeenAt := 7 } ∧
      ∃ m, st'.inboxMessages = exOnePendingState.inboxMessages ++ [m] ∧
        m.messageType = "INPUT_RESPONSE" ∧
        m.sessionId = exReqLow.sessionId ∧
        m.payload.requestId = exReqLow.requestId ∧
        m.payload.requestId = "r-low") :=
  ⟨by decide, rfl, by decide, by decide,
   respond_sole_pending exOnePendingState 7 "m9" "r-low"
     { responseText := "Use action B", responder := "human" } exReqLow exSession
     (by decide) rfl (by decide) (by decide)⟩

theorem applyOp_sessions_char (st : BusState) (t : Nat) (op : BusOp) :
    (applyOp st t op).sessions = st.sessions ∨
    ∃ usid f, (applyOp st t op).sessions = updateSession st.sessions usid f ∧
      (∀ s, (f s).sessionId = s.sessionId) ∧ (∀ s, (f s).lastSeenAt = t) := by
  cases op with
  | heartbeatOp sid state? meta? =>
    simp only [applyOp, heartbeat]
    cases hs : getSession st sid with
    | none => exact Or.inl rfl
    | some s =>
      exact Or.inr ⟨sid,
        (fun x => { x with
          lastSeenAt := t
          state := match state? with | some v => v | none => x.state
          metadata := match meta? with | some m => some m | none => x.metadata }),
        rfl, fun _ => rfl, fun _ => rfl⟩
  | setStateOp sid state =>
    simp only [applyOp, set_state]
    cases hs : getSession st sid with
    | none => exact Or.inl rfl
    | some s =>
      exact Or.inr ⟨sid,
        (fun x => { x with state := state, lastSeenAt := t }),
        rfl, fun _ => rfl, fun _ => rfl⟩
  | createOp fid sid p idemKey =>
    simp only [applyOp, create_request]
    cases hs : getSession st sid with
    | none => exact Or.inl rfl
    | some s =>
      cases hic : idemCheck st ("request.create:" ++ sid) idemKey with
      | some existing => exact Or.inl rfl
      | none =>
        exact Or.inr ⟨sid,
          (fun x => { x with state := SessionState.WAITING_FOR_INPUT,
                             lastSeenAt := t }),
          rfl, fun _ => rfl, fun _ => rfl⟩
  | respondOp fmid rid p idemKey =>
    simp only [applyOp, respond_to_request]
    cases hr : getRequest st rid with
    | none => exact Or.inl rfl
    | some req =>
      cases hic : idemCheck st ("request.respond:" ++ rid) idemKey with
      | some existing => exact Or.inl rfl
      | none =>
        by_cases hb : (req.status != RequestStatus.PENDING) = true
        · refine Or.inl ?_
          simp [hb]
        · have hb2 : (req.status != RequestStatus.PENDING) = false := by
            simpa using hb
          cases hsv : getSession st req.sessionId with
          | none =>
            refine Or.inl ?_
            simp [hb2, hsv]
          | some s =>
            refine Or.inr ⟨req.sessionId,
              (fun x => { x with state := SessionState.WORKING,
                                 lastSeenAt := t }), ?_, fun _ => rfl, fun _ => rfl⟩
            simp [hb2, hsv]

theorem applyOp_wellTimed_lastSeen (st : BusState) (t : Nat) (op : BusOp)
    (hw : WellTimed st t) :
    WellTimed (applyOp st t op) t ∧
    ∀ sid s, getSession st sid = some s →
      ∃ s2, getSession (applyOp st t op) sid = some s2 ∧
        s.lastSeenAt ≤ s2.lastSeenAt := by
  rcases applyOp_sessions_char st t op with h | ⟨usid, f, h, hf, hl⟩
  · constructor
    · intro x hx
      rw [h] at hx
      exact hw x hx
    · intro sid s hs
      refine ⟨s, ?_, le_refl _⟩
      rw [getSession, h]
      exact hs
  · constructor
    · intro x hx
      rw [h] at hx
      obtain ⟨y, hy, rfl⟩ := List.mem_map.mp hx
      by_cases hc : (y.sessionId == usid) = true
      · rw [if_pos hc, hl y]
      · rw [if_neg hc]
        exact hw y hy
    · intro sid s hs
      have hs2 : st.sessions.find? (fun x => x.sessionId == sid) = some s := hs
      refine ⟨if (s.sessionId == usid) = true then f s else s, ?_, ?_⟩
      · rw [getSession, h, find?_updateSession st.sessions usid sid f hf, hs2]
        rfl
      · by_cases hc : (s.sessionId == usid) = true
        · rw [if_pos hc, hl s]
          exact hw s (List.mem_of_find?_eq_some hs2)
        · rw [if_neg hc]

/-- C9: for any sequence of heartbeat, set-status, request-create and
request-respond operations executed under a clock that never moves
backward, a session's last_seen timestamp never decreases: each operation
either leaves a session's last-seen unchanged or sets it to the current
time, so any later observation is greater than or equal to any earlier
one. -/
theorem lastSeen_monotone (ops : List (Nat × BusOp)) :
    ∀ (st : BusState) (t0 : Nat), WellTimed st t0 → timesMonotone t0 ops →
      ∀ (sid : String) (s s2 : Session),
        getSession st sid = some s →
        getSession (runOps st ops) sid = some s2 →
        s.lastSeenAt ≤ s2.lastSeenAt := by
  induction ops with
  | nil =>
    intro st t0 _ _ sid s s2 hs hs2
    have h : some s = some s2 := hs.symm.trans hs2
    cases Option.some.inj h
    exact le_refl _
  | cons p rest ih =>
    obtain ⟨t, op⟩ := p
    intro st t0 hw htm sid s s2 hs hs2
    obtain ⟨ht0, htm2⟩ := htm
    have hw2 : WellTimed st t := fun x hx => le_trans (hw x hx) ht0
    obtain ⟨hwt, hstep⟩ := applyOp_wellTimed_lastSeen st t op hw2
    obtain ⟨s1, hs1, hle1⟩ := hstep sid s hs
    exact le_trans hle1 (ih (applyOp st t op) t hwt htm2 sid s1 s2 hs1 hs2)

/-- Example session observed by the monotonicity run. -/
def exC9Session : Session :=
  { sessionId := "s9", displayName := "Mono", tenantId := none,
    state := SessionState.WORKING, metadata := none, createdAt := 0,
    lastSeenAt := 0 }

/-- Example store for the monotonicity run. -/
def exC9State : BusState :=
  { sessions := [exC9Session], requests := [], inboxMessages := [],
    idempotencyKeys := [] }

/-- Example timed operation sequence: a heartbeat then a state set. -/
def exC9Ops : List (Nat × BusOp) :=
  [(1, BusOp.heartbeatOp "s9" none none),
   (2, BusOp.setStateOp "s9" SessionState.DONE)]

theorem lastSeen_monotone_witness :
    WellTimed exC9State 0 ∧
    timesMonotone 0 exC9Ops ∧
    getSession exC9State "s9" = some exC9Session ∧
    getSession (runOps exC9State exC9Ops) "s9" =
      some { exC9Session with state := SessionState.DONE, lastSeenAt := 2 } ∧
    exC9Session.lastSeenAt ≤
      ({ exC9Session with state := SessionState.DONE,
                          lastSeenAt := 2 } : Session).lastSeenAt :=
  ⟨fun x hx => by
     simp only [exC9State] at hx
     simp at hx
     rw [hx]
     exact Nat.le_refl _,
   ⟨Nat.zero_le 1, Nat.le_succ 1, trivial⟩,
   by decide, by decide,
   lastSeen_monotone exC9Ops exC9State 0
     (fun x hx => by
       simp only [exC9State] at hx
       simp at hx
       rw [hx]
       exact Nat.le_refl _)
     ⟨Nat.zero_le 1, Nat.le_succ 1, trivial⟩
     "s9" exC9Session
     { exC9Session with state := SessionState.DONE, lastSeenAt := 2 }
     (by decide) (by decide)⟩
